import Mathlib

/-
Verification development for the Hashi Character.AI Discord bridge
(session & generation orchestrator).

Shallow embedding of the Python sources:
  utils/func.py   - message cache capture, session store, durable-write queue
  AI/cai.py       - retry with backoff, response generation, fallback handling
  utils/AI_utils.py - message reading (mute check), inactivity monitor,
                      AI_send_message processing-set discipline, task handling

Conventions of the embedding:
  * Python dicts (which preserve insertion order) are modelled as ordered
    association lists `List (String × α)`; assignment overwrites the first
    matching key in place, otherwise appends (matching dict semantics for
    the unique-key dicts the code builds).
  * File-backed JSON state (messages_cache.json, session.json) is passed
    and returned explicitly: a function that returns without writing the
    file returns its input cache unchanged.
  * Timestamps and delays (Python floats from time.time()) are modelled as
    rationals: every comparison the code performs is an exact order
    comparison, so the float representation is irrelevant to the claims.
  * A configured regular expression pattern `p` (an external `re` library
    object) is represented by the total function `String → String` that
    denotes `re.sub(p, '', ·, flags=re.MULTILINE)`; the code always
    composes it with `.strip()`, which is modelled explicitly.
-/

namespace Hashi

/-! ### Ordered association lists: the model of Python dicts -/

/-- Lookup in an insertion-ordered dict (`d.get(k)` / `d[k]`). -/
def alistGet {α : Type} : List (String × α) → String → Option α
  | [], _ => none
  | (k', v) :: rest, k => if k' = k then some v else alistGet rest k

/-- Assignment `d[k] = v`: overwrite the first matching key in place,
otherwise append at the end (Python dict insertion order). -/
def alistSet {α : Type} : List (String × α) → String → α → List (String × α)
  | [], k, v => [(k, v)]
  | (k', v') :: rest, k, v =>
      if k' = k then (k, v) :: rest else (k', v') :: alistSet rest k v

/-! ### Python-semantics helpers -/

/-- Truthiness of an optional integer attribute (`if getattr(m, "webhook_id", None):`):
`None` and `0` are falsy, every other integer truthy.  Discord snowflake ids are
always positive, so on real messages this coincides with "the attribute is set". -/
def pyTruthyNat (o : Option Nat) : Bool :=
  (o.getD 0) != 0

/-- Truthiness of an optional string (`if not chat_id`): `None` and `""` falsy. -/
def pyTruthyStr (o : Option String) : Bool :=
  match o with
  | some s => s ≠ ""
  | none => false

/-- Python `a or b` on an optional string and a string
(`message.author.global_name or message.author.name`). -/
def pyOrStr (g : Option String) (n : String) : String :=
  match g with
  | some s => if s = "" then n else s
  | none => n

/-- Python `s.startswith(prefix)` (structural char-list implementation). -/
def pyStartsWith (s pre : String) : Bool :=
  pre.data.isPrefixOf s.data

/-- Python `s.endswith(suffix)` (structural char-list implementation). -/
def strEndsWith (s suffix : String) : Bool :=
  suffix.data.isSuffixOf s.data

/-- Python `s.strip()`: drop whitespace from both ends. -/
def strTrim (s : String) : String :=
  ⟨((s.data.dropWhile Char.isWhitespace).reverse.dropWhile Char.isWhitespace).reverse⟩

/-- Python `sep.join(parts)`. -/
def strJoin (sep : String) : List String → String
  | [] => ""
  | [x] => x
  | x :: rest => x ++ sep ++ strJoin sep rest

/-- Python `s.isspace()`: non-empty and all characters whitespace. -/
def pyIsSpace (s : String) : Bool :=
  s ≠ "" && s.data.all Char.isWhitespace

/-- Python `not s or s.isspace()` on a string. -/
def pyFalsyOrSpace (s : String) : Bool :=
  s = "" || pyIsSpace s

/-- Fold of `text = re.sub(pattern, '', text, flags=re.MULTILINE).strip()` over a
configured pattern list, each pattern represented by its substitution function. -/
def stripPatterns (patterns : List (String → String)) (text : String) : String :=
  patterns.foldl (fun s p => strTrim (p s)) text

/-- Occurrence check of `nd` at any position of the second list. -/
def strContainsSubAux (nd : List Char) : List Char → Bool
  | [] => nd.isPrefixOf ([] : List Char)
  | l@(_ :: rest) => nd.isPrefixOf l || strContainsSubAux nd rest

/-- Substring containment, Python `"Message" in last_key`. -/
def strContainsSub (hay needle : String) : Bool :=
  strContainsSubAux needle.data hay.data

/-! ### remove_emoji (utils/func.py lines 137-169) -/

/-- The Unicode ranges of the emoji character class in `remove_emoji`. -/
def emojiRanges : List (Nat × Nat) :=
  [(0x1F600, 0x1F64F), (0x1F300, 0x1F5FF), (0x1F680, 0x1F6FF),
   (0x1F700, 0x1F77F), (0x1F780, 0x1F7FF), (0x1F800, 0x1F8FF),
   (0x1F900, 0x1F9FF), (0x1FA00, 0x1FA6F), (0x1FA70, 0x1FAFF),
   (0x2702, 0x27B0), (0x24C2, 0x1F251)]

/-- Membership in the emoji character class. -/
def isEmojiChar (c : Char) : Bool :=
  emojiRanges.any (fun r => r.1 ≤ c.toNat && c.toNat ≤ r.2)

/-- Python `\w` (ASCII approximation: letters, digits, underscore). -/
def isWordChar (c : Char) : Bool :=
  c.isAlphanum || c == '_'

/-- Try to match the tail `a?:\w+:\d+>` of the Discord custom-emoji regex
`<a?:\w+:\d+>` at the start of `l` (the `<` has been consumed); on success
return the remainder after the match.  Because `:`/`>` are neither word
characters nor digits, the greedy runs are deterministic. -/
def matchDiscordEmojiTail (l : List Char) : Option (List Char) :=
  let l1 : Option (List Char) :=
    match l with
    | 'a' :: ':' :: rest => some rest
    | ':' :: rest => some rest
    | _ => none
  match l1 with
  | none => none
  | some r =>
    let ws := r.takeWhile isWordChar
    let r2 := r.dropWhile isWordChar
    if ws = [] then none
    else
      match r2 with
      | ':' :: r3 =>
        let ds := r3.takeWhile Char.isDigit
        let r4 := r3.dropWhile Char.isDigit
        if ds = [] then none
        else
          match r4 with
          | '>' :: r5 => some r5
          | _ => none
      | _ => none

/-- Left-to-right removal of Discord custom emoji matches
(`re.sub(r"<a?:\w+:\d+>", "", text)`), with fuel bounded by the input length. -/
def removeDiscordEmojiGo : Nat → List Char → List Char
  | 0, l => l
  | _ + 1, [] => []
  | fuel + 1, '<' :: rest =>
      match matchDiscordEmojiTail rest with
      | some r => removeDiscordEmojiGo fuel r
      | none => '<' :: removeDiscordEmojiGo fuel rest
  | fuel + 1, c :: rest => c :: removeDiscordEmojiGo fuel rest

/-- Model of `func.remove_emoji`: drop the Unicode emoji class, remove Discord
custom emoji, then strip surrounding whitespace. -/
def remove_emoji (text : String) : String :=
  let t1 : String := ⟨text.data.filter (fun c => !isEmojiChar c)⟩
  let t2 : String := ⟨removeDiscordEmojiGo (t1.data.length + 1) t1.data⟩
  strTrim t2

/-! ### str.format (the simple replacement-field subset used by the config) -/

/-- Model of Python `template.format(**mapping)` restricted to plain
`\x7bname\x7d` replacement fields and `\x7b\x7b`/`\x7d\x7d` escapes; yields
`none` where Python raises (missing key, stray or unterminated brace). -/
def pyFormatGo (subst : List (String × String)) : Nat → List Char → Option (List Char)
  | 0, _ => none
  | _ + 1, [] => some []
  | fuel + 1, '\x7b' :: '\x7b' :: rest =>
      (pyFormatGo subst fuel rest).map ('\x7b' :: ·)
  | fuel + 1, '\x7d' :: '\x7d' :: rest =>
      (pyFormatGo subst fuel rest).map ('\x7d' :: ·)
  | _ + 1, '\x7d' :: _ => none
  | fuel + 1, '\x7b' :: rest =>
      let key := rest.takeWhile (· ≠ '\x7d')
      let rest' := rest.dropWhile (· ≠ '\x7d')
      match rest' with
      | '\x7d' :: rest'' =>
          match alistGet subst (⟨key⟩ : String) with
          | some v => (pyFormatGo subst fuel rest'').map (v.data ++ ·)
          | none => none
      | _ => none
  | fuel + 1, c :: rest => (pyFormatGo subst fuel rest).map (c :: ·)

/-- String-level wrapper for `pyFormatGo`. -/
def pyFormat (template : String) (subst : List (String × String)) : Option String :=
  (pyFormatGo subst (template.data.length + 1) template.data).map (⟨·⟩)

/-! ### Data model

Session records as stored per (server, channel, ai_name) in session.json /
the in-memory `session_cache` (see boot.py setup and the reads throughout
utils/func.py and utils/AI_utils.py).  Fields carry Lean-side defaults only
to ease construction of concrete witnesses. -/

/-- The per-session `config` sub-dict (formatting and timing options). -/
structure SessionConfig where
  /-- `config.get("user_format_syntax", "\x7bmessage\x7d")` -/
  userFormatTemplate : Option String := none
  /-- `config.get("user_reply_format_syntax", "\x7bmessage\x7d")` -/
  userReplyFormatTemplate : Option String := none
  /-- `config["remove_user_emoji"]` -/
  removeUserEmoji : Bool := false
  /-- `config["remove_ai_emoji"]` -/
  removeAiEmoji : Bool := false
  /-- `config.get("remove_user_text_from", [])`, each regex as its
  `re.sub(p, '', ·, flags=re.MULTILINE)` denotation -/
  removeUserTextFrom : List (String → String) := []
  /-- `config.get("delay_for_generation", 5)` -/
  delayForGeneration : Option ℚ := none

/-- One AI persona session (value of `channel_data[ai_name]`). -/
structure Session where
  characterId : Option String := none
  chatId : Option String := none
  mode : Option String := none
  webhookUrl : Option String := none
  awaitingResponse : Bool := false
  lastMessageTime : ℚ := 0
  mutedUsers : List Nat := []
  config : SessionConfig := {}
  setupHasAlready : Bool := false

/-- `channel_data`: ai_name ↦ session. -/
abbrev ChannelData := List (String × Session)

/-- One server record of the session store: `\x7b"channels": \x7b...\x7d\x7d`. -/
structure ServerRec (α : Type) where
  channels : List (String × α) := []

/-- The session store shape (session.json / `session_cache`), generic in the
per-channel payload exactly as the Python code is. -/
abbrev SessionStore (α : Type) := List (String × ServerRec α)

/-- The concrete in-memory session cache. -/
abbrev SessionCache := SessionStore ChannelData

/-- messages_cache.json: server ↦ channel ↦ (synthetic key ↦ fragment). -/
abbrev ChannelFrags := List (String × String)

/-- Per-server slice of the message cache. -/
abbrev ServerFrags := List (String × ChannelFrags)

/-- The whole message cache file. -/
abbrev MsgCache := List (String × ServerFrags)

/-- Message author (discord.py `message.author`). -/
structure MsgAuthor where
  id : Nat := 0
  name : String := ""
  globalName : Option String := none

/-- The slice of a Discord message the orchestrator reads. -/
structure DiscordMessage where
  webhookId : Option Nat := none
  inGuild : Bool := true
  guildId : String := ""
  channelId : String := ""
  content : String := ""
  author : MsgAuthor := {}

/-! ### Session store (utils/func.py lines 419-496) -/

/-- `get_session_data`: read-only lookup in the in-memory cache. -/
def get_session_data {α : Type} (cache : SessionStore α) (serverId channelId : String) :
    Option α :=
  match alistGet cache serverId with
  | none => none
  | some r => alistGet r.channels channelId

/-- One durable-write job `(server_id, channel_id, new_data)` as enqueued on
`session_update_queue`. -/
abbrev SessionJob (α : Type) := String × String × α

/-- The body shared by `process_session_updates` (lines 437-442 applied to the
file) and `update_session_data` (lines 472-476 applied to the memory cache):
ensure the server record and its `channels` dict exist, then assign
`[server_id]["channels"][channel_id] = new_data`.  In the typed model a server
record always carries a `channels` field, so the second existence check is
subsumed by the default-empty record. -/
def applySessionJob {α : Type} (store : SessionStore α) (serverId channelId : String)
    (v : α) : SessionStore α :=
  let rec0 := (alistGet store serverId).getD {}
  alistSet store serverId { channels := alistSet rec0.channels channelId v }

/-- The single background writer (`process_session_updates`): consume the queue
strictly in FIFO order, applying each job to the backing store (read
session.json, mutate, write back). -/
def process_session_updates {α : Type} (store : SessionStore α)
    (jobs : List (SessionJob α)) : SessionStore α :=
  jobs.foldl (fun st j => applySessionJob st j.1 j.2.1 j.2.2) store

/-- `update_session_data`: synchronously update the in-memory cache, then
append the durable-write job to the queue; returns (new cache, new queue). -/
def update_session_data {α : Type} (mem : SessionStore α) (queue : List (SessionJob α))
    (serverId channelId : String) (v : α) : SessionStore α × List (SessionJob α) :=
  (applySessionJob mem serverId channelId v, queue ++ [(serverId, channelId, v)])

/-- Value stored for (server, channel) in a session store. -/
def getStoredChannel {α : Type} (store : SessionStore α) (serverId channelId : String) :
    Option α :=
  match alistGet store serverId with
  | none => none
  | some r => alistGet r.channels channelId

/-! ### Message cache (utils/func.py lines 188-371 and 498-550) -/

/-- `is_channel_active`: `channel_id in session_cache.get(server_id, \x7b\x7d).get("channels", \x7b\x7d)`. -/
def is_channel_active (cache : SessionCache) (serverId channelId : String) : Bool :=
  (alistGet ((alistGet cache serverId).getD {}).channels channelId).isSome

/-- The channel fragment map `cache[server_id][channel_id]` of the message cache. -/
def getMsgChannel (cache : MsgCache) (serverId channelId : String) : Option ChannelFrags :=
  match alistGet cache serverId with
  | none => none
  | some srv => alistGet srv channelId

/-- In-place nested assignment `dados[server_id][channel_id] = frags`. -/
def setMsgChannel (cache : MsgCache) (serverId channelId : String)
    (frags : ChannelFrags) : MsgCache :=
  alistSet cache serverId (alistSet ((alistGet cache serverId).getD []) channelId frags)

/-- `msg_text` of capture_message: message content with emoji optionally removed. -/
def capture_msg_text (cfg : SessionConfig) (msg : DiscordMessage) : String :=
  if cfg.removeUserEmoji then remove_emoji msg.content else msg.content

/-- `msg_name` of capture_message: `global_name or name`, emoji optionally removed. -/
def capture_msg_name (cfg : SessionConfig) (msg : DiscordMessage) : String :=
  let n := pyOrStr msg.author.globalName msg.author.name
  if cfg.removeUserEmoji then remove_emoji n else n

/-- The `syntax` substitution dict of capture_message for a plain (non-reply)
message, after the `remove_user_text_from` patterns were applied to the
message text. -/
def captureFields (cfg : SessionConfig) (msg : DiscordMessage) (timeStr : String) :
    List (String × String) :=
  [("time", timeStr),
   ("username", msg.author.name),
   ("name", capture_msg_name cfg msg),
   ("message", stripPatterns cfg.removeUserTextFrom (capture_msg_text cfg msg))]

/-- Additional reply fields of the `syntax` dict when a referenced message is
captured. -/
def captureReplyFields (cfg : SessionConfig) (reply : DiscordMessage) :
    List (String × String) :=
  let replyText := if cfg.removeUserEmoji then remove_emoji reply.content else reply.content
  let replyName :=
    if cfg.removeUserEmoji then remove_emoji (pyOrStr reply.author.globalName reply.author.name)
    else pyOrStr reply.author.globalName reply.author.name
  [("reply_username", reply.author.name),
   ("reply_name", replyName),
   ("reply_message", stripPatterns cfg.removeUserTextFrom replyText)]

/-- `formatted_message = template_syntax.format(**syntax)` for a plain message. -/
def capture_formatted (cfg : SessionConfig) (msg : DiscordMessage) (timeStr : String) :
    Option String :=
  pyFormat (cfg.userFormatTemplate.getD "\x7bmessage\x7d") (captureFields cfg msg timeStr)

/-- `formatted_reply = reply_template_syntax.format(**syntax)` for a reply capture. -/
def capture_formatted_reply (cfg : SessionConfig) (msg : DiscordMessage)
    (reply : DiscordMessage) (timeStr : String) : Option String :=
  pyFormat (cfg.userReplyFormatTemplate.getD "\x7bmessage\x7d")
    (captureFields cfg msg timeStr ++ captureReplyFields cfg reply)

/-- The grouping/dedup block of capture_message (func.py lines 291-318) for a
plain message: skip if the identical formatted fragment is already stored;
otherwise merge into the previous entry when it is a `Message*` entry whose
text ends with the author's display name, else append `Message\x7bn+1\x7d`. -/
def capture_store (frags : ChannelFrags) (formatted msgName : String) : ChannelFrags :=
  if frags.any (fun kv => kv.2 = formatted) then frags
  else
    match frags.getLast? with
    | some (lastKey, lastMsg) =>
        if strContainsSub lastKey "Message" && strEndsWith lastMsg msgName then
          alistSet frags lastKey (lastMsg ++ "\n" ++ formatted)
        else
          alistSet frags ("Message" ++ toString (frags.length + 1)) formatted
    | none => alistSet frags ("Message" ++ toString (frags.length + 1)) formatted

/-- Model of `func.capture_message(message_info, reply_message=None)`.

State passed explicitly: `scache` is the in-memory session cache,
`dados` the current content of messages_cache.json, `timeStr` the rendered
current time; the returned value is the file content after the call.
A `none` result of a `.format` call models the Python exception caught by
the surrounding `try` (the cache is then written with only the key-ensuring
mutations applied). -/
def capture_message (scache : SessionCache) (msg : DiscordMessage)
    (reply : Option DiscordMessage) (dados : MsgCache) (timeStr : String) : MsgCache :=
  -- Skip capturing if the message was sent by a webhook.
  if pyTruthyNat msg.webhookId then dados
  else
    let serverId := msg.guildId
    let channelId := msg.channelId
    -- Check if the channel is still active before capturing the message.
    if !is_channel_active scache serverId channelId then dados
    else
      -- Ensure server and channel keys exist.
      let d1 := if (alistGet dados serverId).isSome then dados else alistSet dados serverId []
      let srv := (alistGet d1 serverId).getD []
      let d2 := if (alistGet srv channelId).isSome then d1
                else alistSet d1 serverId (alistSet srv channelId [])
      match get_session_data scache serverId channelId with
      | none => dados      -- `if not channel_data: return` (no write happens)
      | some cd =>
        match cd with
        | [] => dados      -- empty dict is falsy: same early return
        | (_, session) :: _ =>
          let cfg := session.config
          let msgText := capture_msg_text cfg msg
          let frags := (getMsgChannel d2 serverId channelId).getD []
          match reply with
          | none =>
            if msgText ≠ "" then
              match capture_formatted cfg msg timeStr with
              | none => d2   -- .format raised; except-path falls through to write_json
              | some formatted =>
                  setMsgChannel d2 serverId channelId
                    (capture_store frags formatted (capture_msg_name cfg msg))
            else d2
          | some rep =>
            match capture_formatted_reply cfg msg rep timeStr with
            | none => d2
            | some formattedReply =>
                if alistGet frags "Reply" ≠ some formattedReply then
                  setMsgChannel d2 serverId channelId (alistSet frags "Reply" formattedReply)
                else d2

/-- `format_to_send`: join all fragments of the channel with newlines
(func.py lines 335-371); empty/missing server or channel data yields `""`. -/
def format_to_send (cache : MsgCache) (serverId channelId : String) : String :=
  match alistGet cache serverId with
  | none => ""
  | some srv =>
    if srv = [] then ""
    else
      match alistGet srv channelId with
      | none => ""
      | some chan =>
        if chan = [] then ""
        else strJoin "\n" (chan.map (fun kv => kv.2))

/-- Model of `remove_sent_messages_from_cache` (func.py lines 533-549): if the
channel key exists at clear-time, replace the channel's fragment map by the
empty map ("we'll clear the cache completely") and write the file back. -/
def remove_sent_messages_from_cache (cache : MsgCache) (serverId channelId : String) :
    MsgCache :=
  match alistGet cache serverId with
  | none => cache
  | some srv =>
      if (alistGet srv channelId).isSome then
        alistSet cache serverId (alistSet srv channelId [])
      else cache

/-! ### Generation dispatcher (AI/cai.py) -/

/-- The exception classes relevant to `retry_with_backoff`'s except clause
`(aiohttp.ClientError, asyncio.TimeoutError, exceptions.SessionClosedError)`;
`other` stands for any exception outside that tuple. -/
inductive PyErr
  | clientError
  | timeoutError
  | sessionClosed
  | other
deriving DecidableEq

/-- Whether `retry_with_backoff` catches (and hence retries) the error. -/
def retryableErr : PyErr → Bool
  | .clientError => true
  | .timeoutError => true
  | .sessionClosed => true
  | .other => false

/-- Observable outcome of `retry_with_backoff`: the returned value or the
raised error (`none` models the implicit `None` return when the loop body
never runs, i.e. `max_retries = 0`), together with the number of attempts
issued and the sleeps performed between them. -/
structure RetryResult where
  outcome : Option (Except PyErr String)
  attempts : Nat
  delays : List ℚ

/-- Loop of `retry_with_backoff` (cai.py lines 40-49); `remaining` is the
number of loop iterations left, `attempt` the current index. -/
def retryLoop (f : Nat → Except PyErr String) (maxRetries : Nat) (baseDelay : ℚ) :
    Nat → Nat → List ℚ → RetryResult
  | 0, attempt, delays => ⟨none, attempt, delays.reverse⟩
  | remaining + 1, attempt, delays =>
    match f attempt with
    | .ok s => ⟨some (.ok s), attempt + 1, delays.reverse⟩
    | .error e =>
      if retryableErr e then
        if attempt = maxRetries - 1 then ⟨some (.error e), attempt + 1, delays.reverse⟩
        else retryLoop f maxRetries baseDelay remaining (attempt + 1)
               (baseDelay * 2 ^ attempt :: delays)
      else ⟨some (.error e), attempt + 1, delays.reverse⟩

/-- Model of `retry_with_backoff(func, max_retries, base_delay)`: the attempt
function `f` gives the outcome of each upstream call by attempt index. -/
def retry_with_backoff (f : Nat → Except PyErr String) (maxRetries : Nat)
    (baseDelay : ℚ) : RetryResult :=
  retryLoop f maxRetries baseDelay maxRetries 0 []

/-- Fallback substituted by `try_generate` when the formatted prompt is empty. -/
def msgNoFormatted : String := "I couldn\x27t process your message. Please try again."

/-- Fallback substituted when the successful reply is empty or whitespace. -/
def msgEmptyReply : String :=
  "I\x27m sorry, but I couldn\x27t generate a response. Please try again."

/-- Fallback of the session-closed recovery path. -/
def msgTrouble : String := "I\x27m having trouble connecting. Please try again later."

/-- Fallback of the generic exception handler of cai_response. -/
def msgGenError : String :=
  "An error occurred while generating a response. Please try again later."

/-- Early-return text when chat_id or character_id is missing. -/
def msgMissingConfig : String := "Error: Missing chat configuration. Please check the logs."

/-- Model of the inner `try_generate` closure (cai.py lines 251-281): format
the cached messages; an empty prompt sets the no-formatted fallback and
returns successfully, otherwise the upstream `send_message` outcome for this
attempt decides. -/
def try_generate (cache : MsgCache) (serverId channelId : String)
    (upstream : Nat → Except PyErr String) (attempt : Nat) : Except PyErr String :=
  if format_to_send cache serverId channelId = "" then .ok msgNoFormatted
  else upstream attempt

/-- Observable result of `cai_response`: the returned reply text, the attempt
counts and backoff sleeps of the primary retry and (when the session-closed
recovery ran a second retry) of the recovery retry. -/
structure CaiResult where
  text : String
  attempts1 : Nat
  delays1 : List ℚ
  recovered : Bool
  attempts2 : Nat
  delays2 : List ℚ
deriving DecidableEq

/-- Model of `cai_response` (cai.py lines 221-329).

`upstream` gives the outcome of each `client.chat.send_message` attempt of
the first `retry_with_backoff(try_generate, 3, 2)` call; on a final
SessionClosedError the recovery path runs: `recreateOk` tells whether
`create_chat` succeeded, and `upstream2` gives the attempt outcomes of the
reduced `retry_with_backoff(try_generate, 2, 2)` call.  The `finally` block
strips the configured `remove_IA_text_from` patterns from whatever
`AI_response` holds before it is returned.  The missing-configuration early
return happens before the `try`, so it alone is not pattern-stripped. -/
def cai_response (patterns : List (String → String)) (chatId characterId : Option String)
    (cache : MsgCache) (serverId channelId : String)
    (upstream upstream2 : Nat → Except PyErr String) (recreateOk : Bool) : CaiResult :=
  if !pyTruthyStr chatId || !pyTruthyStr characterId then
    ⟨msgMissingConfig, 0, [], false, 0, []⟩
  else
    let r1 := retry_with_backoff (try_generate cache serverId channelId upstream) 3 2
    match r1.outcome with
    | some (.ok s) =>
        -- empty-reply check on the raw reply, BEFORE the finally-block stripping
        let t := if pyFalsyOrSpace s then msgEmptyReply else s
        ⟨stripPatterns patterns t, r1.attempts, r1.delays, false, 0, []⟩
    | some (.error PyErr.sessionClosed) =>
        if recreateOk then
          let r2 := retry_with_backoff (try_generate cache serverId channelId upstream2) 2 2
          match r2.outcome with
          | some (.ok s) =>
              ⟨stripPatterns patterns s, r1.attempts, r1.delays, true, r2.attempts, r2.delays⟩
          | _ =>
              ⟨stripPatterns patterns msgTrouble, r1.attempts, r1.delays, true,
                r2.attempts, r2.delays⟩
        else ⟨stripPatterns patterns msgTrouble, r1.attempts, r1.delays, false, 0, []⟩
    | some (.error _) =>
        ⟨stripPatterns patterns msgGenError, r1.attempts, r1.delays, false, 0, []⟩
    | none =>
        -- unreachable for max_retries = 3: kept for totality (stale global stripped)
        ⟨stripPatterns patterns "", r1.attempts, r1.delays, false, 0, []⟩

/-! ### Response handler and monitor (utils/AI_utils.py) -/

/-- Fallback substituted by `handle_response` when the text it received is
empty or whitespace (AI_utils.py line 331). -/
def msgNoResponse : String :=
  "I\x27m sorry, but I don\x27t have a response at the moment. Could you please try again?"

/-- Text-processing part of the `handle_response` callback (AI_utils.py lines
324-331): optional emoji removal, then the empty-or-whitespace substitution;
the result is what gets delivered to the channel or webhook. -/
def handle_response_text (removeAiEmoji : Bool) (response : String) : String :=
  let r := if removeAiEmoji then remove_emoji response else response
  if pyFalsyOrSpace r then msgNoResponse else r

/-- The mute check of `read_channel_messages` (AI_utils.py lines 136-141):
loop over the channel's personas breaking at the first one whose
`muted_users` contains the author. -/
def user_muted (cd : ChannelData) (authorId : Nat) : Bool :=
  cd.any (fun kv => kv.2.mutedUsers.contains authorId)

/-- Modelled from the spec words (for comparison only, not from the source):
"capture is a no-op if the author is in the session's `muted_users` for
EVERY persona in that channel". -/
def muted_for_every_persona (cd : ChannelData) (authorId : Nat) : Bool :=
  cd.all (fun kv => kv.2.mutedUsers.contains authorId)

/-- Combined orchestrator state threaded through the message-reading path:
in-memory session cache, durable-write queue, and messages_cache.json. -/
structure BotState where
  sessionCache : SessionCache := []
  queue : List (SessionJob ChannelData) := []
  msgCache : MsgCache := []

/-- Model of `_process_channel_message` for one target channel (AI_utils.py
lines 169-233): under the per-channel lock, re-check the target's session
data, capture the message (skipped for webhook messages; with the fetched
referenced message when the message is a reply), then refresh
`last_message_time`/`awaiting_response` for every persona of the target
channel and persist via `update_session_data`. -/
def process_channel_message (st : BotState) (msg : DiscordMessage)
    (refMsg : Option DiscordMessage) (targetChannelId : String) (timeStr : String)
    (now : ℚ) : BotState :=
  match get_session_data st.sessionCache msg.guildId targetChannelId with
  | none => st
  | some cd =>
    match cd with
    | [] => st
    | _ :: _ =>
      let dados :=
        if pyTruthyNat msg.webhookId then st.msgCache
        else capture_message st.sessionCache msg refMsg st.msgCache timeStr
      let cd2 := cd.map (fun kv =>
        (kv.1, { kv.2 with lastMessageTime := now, awaitingResponse := false }))
      let upd := update_session_data st.sessionCache st.queue msg.guildId targetChannelId cd2
      ⟨upd.1, upd.2, dados⟩

/-- `channels_to_process` (AI_utils.py lines 147-153): every channel of the
server whose channel data is truthy (non-empty). -/
def channels_to_process (scache : SessionCache) (serverId : String) : List String :=
  (((alistGet scache serverId).getD {}).channels.filter (fun kv => !kv.2.isEmpty)).map
    (fun kv => kv.1)

/-- Model of `read_channel_messages` (AI_utils.py lines 111-167): guard chain
(DM / own message / comment prefix / unknown channel / muted author), then
process the message for every qualifying channel of the server.  The
concurrent `asyncio.gather` is modelled as a sequential fold: each task's
cache accesses are serialized by the per-channel lock and the file lock. -/
def read_channel_messages (clientUserId : Nat) (st : BotState) (msg : DiscordMessage)
    (refMsg : Option DiscordMessage) (timeStr : String) (now : ℚ) : BotState :=
  if !msg.inGuild || msg.author.id == clientUserId then st
  else if pyStartsWith msg.content "#" || pyStartsWith msg.content "//" then st
  else
    match get_session_data st.sessionCache msg.guildId msg.channelId with
    | none => st
    | some cd =>
      match cd with
      | [] => st
      | _ :: _ =>
        if user_muted cd msg.author.id then st
        else
          (channels_to_process st.sessionCache msg.guildId).foldl
            (fun acc target => process_channel_message acc msg refMsg target timeStr now) st

/-- `len(channel_messages)` read by the monitor from messages_cache.json. -/
def monitor_cache_count (cache : MsgCache) (serverId channelId : String) : Nat :=
  ((getMsgChannel cache serverId channelId).getD []).length

/-- One tick of `_monitor_ai_inactivity`'s decision (AI_utils.py lines
475-499): returns whether this tick triggers a generation.  `currentSession`
is the freshly reloaded session, `snapshotSession` the session captured when
the monitor task started (the code reads `delay_for_generation` from the
stale snapshot), `processing` whether the persona key is in
`processing_channels`. -/
def monitor_tick_triggers (currentSession : Session) (processing : Bool)
    (msgCache : MsgCache) (serverId channelId : String) (snapshotSession : Session)
    (now : ℚ) : Bool :=
  if currentSession.awaitingResponse then false
  else if processing then false
  else
    let cacheCount := monitor_cache_count msgCache serverId channelId
    let timeSinceLast := now - currentSession.lastMessageTime
    let delay := snapshotSession.config.delayForGeneration.getD 5
    (decide (timeSinceLast ≥ delay) || decide (cacheCount ≥ 5)) && decide (cacheCount > 0)

/-! ### AI_send_message processing-set discipline (AI_utils.py lines 235-408) -/

/-- The branch conditions of one `AI_send_message` invocation that decide which
path it takes (in source order). -/
structure SendFlowEnv where
  /-- `channel_data` truthy and `ai_name in channel_data` (line 261) -/
  channelDataOk : Bool := true
  /-- `session.get("chat_id")` falsy, so a chat is created first (line 268) -/
  chatIdMissing : Bool := false
  /-- the chat-creation (or any later statement of the try body) raises -/
  newChatRaises : Bool := false
  /-- no cached messages for the channel (line 284) -/
  cacheEmpty : Bool := false
  /-- `last_message_time` advanced during the 3 s sleep (line 302) -/
  newerActivity : Bool := false
  /-- `asyncio.timeout(10.0)` fired while queueing (line 390) -/
  queueTimeout : Bool := false

/-- Where `AI_send_message` leaves `processing_channels` when the invocation
itself returns, and whether it queued a generation request whose
`handle_response` callback is still pending.  The set is modelled as a list
without duplicates (`add` is guarded by the membership test). -/
def ai_send_message_flow (procIn : List String) (aiKey : String) (env : SendFlowEnv) :
    List String × Bool :=
  if procIn.contains aiKey then (procIn, false)   -- already being processed: skip
  else
    let proc := aiKey :: procIn                   -- processing_channels.add(ai_key)
    if !env.channelDataOk then (proc, false)      -- line 264 `return`: no discard runs
    else if env.chatIdMissing && env.newChatRaises then (proc.erase aiKey, false)
    else if env.cacheEmpty then (proc.erase aiKey, false)
    else if env.newerActivity then (proc.erase aiKey, false)
    else if env.queueTimeout then (proc.erase aiKey, false)
    else (proc, true)                             -- request queued; callback pending

/-- The `finally` of `handle_response` (line 374): always discard the key. -/
def handle_response_cleanup (proc : List String) (aiKey : String) : List String :=
  proc.erase aiKey

/-- `processing_channels` after the `AI_send_message` invocation AND any
generation/callback it queued have finished (`handle_response` always runs
its `finally` discard, on success or exception). -/
def ai_send_message_final (procIn : List String) (aiKey : String) (env : SendFlowEnv) :
    List String :=
  let r := ai_send_message_flow procIn aiKey env
  if r.2 then handle_response_cleanup r.1 aiKey else r.1

/-! ### Generation-task bookkeeping of the inactivity monitor (AI_utils.py
lines 501-513)

The monitor's trigger step for a persona key: if `active_tasks` holds a
not-yet-done task for the key, cancel it and await its completion, then
create the new generation task and store its handle.  In asyncio there is no
suspension point between the end of that await and `create_task`, and only
the (unique) monitor task of a persona performs this step for its key, so
the step is modelled as atomic. -/

/-- One generation task ever spawned: its persona key, task id, and whether it
is still running. -/
structure GenTask where
  key : String
  tid : Nat
  running : Bool
deriving DecidableEq

/-- Bookkeeping state: all spawned tasks (in creation order), the
`active_tasks` dict mapping each key to the most recently stored handle, and
a fresh-id counter. -/
structure TaskState where
  tasks : List GenTask
  activeTasks : List (String × Nat)
  nextId : Nat
deriving DecidableEq

/-- `task.done()` for the task with id `tid` (ids are unique). -/
def task_is_done (tasks : List GenTask) (tid : Nat) : Bool :=
  tasks.all (fun t => t.tid != tid || !t.running)

/-- Mark the task with id `tid` as no longer running (completion, or
cancellation followed by the awaited CancelledError). -/
def mark_task_done (tasks : List GenTask) (tid : Nat) : List GenTask :=
  tasks.map (fun t => if t.tid = tid then { t with running := false } else t)

/-- The monitor's trigger step for persona key `k` (lines 501-513): cancel and
await any still-running stored task for the key, then create and store the
new generation task. -/
def trigger_generation (s : TaskState) (k : String) : TaskState :=
  let tasks1 :=
    match alistGet s.activeTasks k with
    | some tid => if task_is_done s.tasks tid then s.tasks else mark_task_done s.tasks tid
    | none => s.tasks
  { tasks := tasks1 ++ [⟨k, s.nextId, true⟩],
    activeTasks := alistSet s.activeTasks k s.nextId,
    nextId := s.nextId + 1 }

/-- A generation task finishing on its own. -/
def finish_task (s : TaskState) (tid : Nat) : TaskState :=
  { s with tasks := mark_task_done s.tasks tid }

/-- The events that change the task bookkeeping. -/
inductive TaskStep : TaskState → TaskState → Prop
  | trigger (s : TaskState) (k : String) : TaskStep s (trigger_generation s k)
  | complete (s : TaskState) (tid : Nat) : TaskStep s (finish_task s tid)

/-- States reachable from the initial empty bookkeeping. -/
inductive TaskReachable : TaskState → Prop
  | init : TaskReachable ⟨[], [], 0⟩
  | step {s s' : TaskState} : TaskReachable s → TaskStep s s' → TaskReachable s'

/-- The generation tasks of persona key `k` that are currently running. -/
def running_for (s : TaskState) (k : String) : List GenTask :=
  s.tasks.filter (fun t => t.key == k && t.running)

/-- The inductive invariant of the task bookkeeping: ids are fresh and
distinct, and every running task is the one its key's `active_tasks` entry
points to. -/
def TaskInv (s : TaskState) : Prop :=
  (∀ t ∈ s.tasks, t.tid < s.nextId) ∧
  (s.tasks.map (fun t => t.tid)).Nodup ∧
  (∀ t ∈ s.tasks, t.running = true → alistGet s.activeTasks t.key = some t.tid)

/-! ## Theorems -/

/-! ### Association-list lemmas (shared) -/

theorem alistGet_set_self {α : Type} (m : List (String × α)) (k : String) (v : α) :
    alistGet (alistSet m k v) k = some v := by
  induction m with
  | nil => simp [alistSet, alistGet]
  | cons kv rest ih =>
      obtain ⟨k', v'⟩ := kv
      by_cases h : k' = k
      · simp [alistSet, alistGet, h]
      · simp [alistSet, alistGet, h, ih]

theorem alistGet_set_ne {α : Type} (m : List (String × α)) (k k' : String) (v : α)
    (h : k' ≠ k) : alistGet (alistSet m k' v) k = alistGet m k := by
  induction m with
  | nil => simp [alistSet, alistGet, h]
  | cons kv rest ih =>
      obtain ⟨k₀, v₀⟩ := kv
      by_cases h0 : k₀ = k'
      · simp [alistSet, alistGet, h0, h]
      · by_cases h1 : k₀ = k
        · simp [alistSet, alistGet, h0, h1, Ne.symm h]
        · simp [alistSet, alistGet, h0, h1, ih]

theorem alistSet_get_self {α : Type} (m : List (String × α)) (k : String) (v : α)
    (h : alistGet m k = some v) : alistSet m k v = m := by
  induction m with
  | nil => simp [alistGet] at h
  | cons kv rest ih =>
      obtain ⟨k₀, v₀⟩ := kv
      by_cases h0 : k₀ = k
      · subst h0
        simp [alistGet] at h
        simp [alistSet, h]
      · simp [alistGet, h0] at h
        simp [alistSet, h0, ih h]

/-! ### C10: webhook-authored messages are never captured -/

/-- Claim C10: for every message whose `webhook_id` attribute is set (a
Discord snowflake, hence positive), `capture_message` returns before reading
or writing anything, leaving the message cache completely unchanged. -/
theorem webhook_message_never_captured (scache : SessionCache) (msg : DiscordMessage)
    (reply : Option DiscordMessage) (dados : MsgCache) (timeStr : String) (w : Nat)
    (h : msg.webhookId = some w) (hw : 0 < w) :
    capture_message scache msg reply dados timeStr = dados := by
  have hT : pyTruthyNat msg.webhookId = true := by
    simp [pyTruthyNat, h]
    omega
  unfold capture_message
  rw [hT]
  simp

/-- Witness for C10 at a concrete webhook-authored message. -/
theorem webhook_message_never_captured_witness :
    capture_message [] { webhookId := some 5 } none [("s", [])] "12:00" = [("s", [])] :=
  webhook_message_never_captured [] { webhookId := some 5 } none [("s", [])] "12:00" 5
    rfl (by decide)

/-! ### C3: the post-generation clear wipes fragments captured during
generation -/

/-- Counterexample to claim C3: a fragment captured (via `capture_message`)
after the drain-for-generation began is NOT present after the corresponding
clear — `remove_sent_messages_from_cache` empties the channel's fragment map
completely at clear-time, deleting the late fragment `"late msg"`. -/
theorem clear_drops_fragments_captured_during_generation :
    capture_message [("s", { channels := [("c", [("Luna", {})])] })]
        { guildId := "s", channelId := "c", content := "late msg",
          author := { id := 7, name := "bob", globalName := some "Bob" } }
        none [("s", [("c", [("Message1", "early")])])] "12:00"
      = [("s", [("c", [("Message1", "early"), ("Message2", "late msg")])])] ∧
    remove_sent_messages_from_cache
        [("s", [("c", [("Message1", "early"), ("Message2", "late msg")])])] "s" "c"
      = [("s", [("c", [])])] := by
  constructor
  · rfl
  · rfl

/-- Claim C3 as amended: the clear operates on the state at clear-time and
empties the channel's fragment map completely, so fragments captured after
the drain began are removed, not preserved. -/
theorem clear_empties_channel_at_clear_time (cache : MsgCache) (serverId channelId : String)
    (srv : ServerFrags) (chan : ChannelFrags)
    (h1 : alistGet cache serverId = some srv) (h2 : alistGet srv channelId = some chan) :
    getMsgChannel (remove_sent_messages_from_cache cache serverId channelId)
      serverId channelId = some [] := by
  unfold remove_sent_messages_from_cache
  rw [h1]
  simp only [h2, Option.isSome_some, if_true]
  unfold getMsgChannel
  rw [alistGet_set_self]
  exact alistGet_set_self srv channelId []

/-- Witness for the amended C3 at a concrete cache. -/
theorem clear_empties_channel_at_clear_time_witness :
    getMsgChannel (remove_sent_messages_from_cache
      [("s", [("c", [("Message1", "hi")])])] "s" "c") "s" "c" = some [] :=
  clear_empties_channel_at_clear_time [("s", [("c", [("Message1", "hi")])])] "s" "c"
    [("c", [("Message1", "hi")])] [("Message1", "hi")] rfl rfl

/-! ### C7: the processing-set cleanup misses the no-session-data path -/

/-- Claim C7 evaluated at the failing input: when `AI_send_message` adds the
persona key and then finds no session data for the persona (the early
`return` at AI_utils.py line 264), no discard ever runs — the key stays in
`processing_channels` after the invocation (which queued no callback)
finished, permanently wedging the persona. -/
theorem processing_key_leaked_on_missing_session_data :
    ai_send_message_final [] "srv_ch_ai" { channelDataOk := false } = ["srv_ch_ai"] := by
  rfl

/-! ### C4: the monitor's trigger condition -/

/-- Claim C4: one monitor tick triggers a generation exactly when the persona
is not awaiting a response, is not in the processing set, the channel's
message cache is non-empty, and either the debounce delay has elapsed since
`last_message_time` or the cache holds at least 5 fragments; in particular,
below the size trigger nothing fires before the delay has elapsed. -/
theorem monitor_trigger_condition (cur snap : Session) (pr : Bool) (cache : MsgCache)
    (sid cid : String) (now : ℚ) :
    (monitor_tick_triggers cur pr cache sid cid snap now = true ↔
      (cur.awaitingResponse = false ∧ pr = false ∧
        0 < monitor_cache_count cache sid cid ∧
        (snap.config.delayForGeneration.getD 5 ≤ now - cur.lastMessageTime ∨
          5 ≤ monitor_cache_count cache sid cid))) ∧
    (now - cur.lastMessageTime < snap.config.delayForGeneration.getD 5 →
      monitor_cache_count cache sid cid < 5 →
      monitor_tick_triggers cur pr cache sid cid snap now = false) := by
  constructor
  · unfold monitor_tick_triggers
    cases haw : cur.awaitingResponse <;> cases hpr : pr <;>
      simp [Bool.and_eq_true, Bool.or_eq_true, decide_eq_true_eq, ge_iff_le] <;>
      tauto
  · intro h1 h2
    unfold monitor_tick_triggers
    cases cur.awaitingResponse <;> cases pr <;> simp_all

/-- Witness for C4: debounce delay 7 not yet elapsed (3 s since activity) and
only 2 cached fragments: no trigger. -/
theorem monitor_trigger_condition_witness :
    monitor_tick_triggers {} false [("s", [("c", [("Message1", "a"), ("Message2", "b")])])]
      "s" "c" { config := { delayForGeneration := some 7 } } 3 = false :=
  (monitor_trigger_condition {} { config := { delayForGeneration := some 7 } } false
      [("s", [("c", [("Message1", "a"), ("Message2", "b")])])] "s" "c" 3).2
    (by norm_num) (by decide)

/-! ### C6: capture is idempotent on the rendered fragment -/

/-- Claim C6: capturing a non-reply message whose formatted fragment is
identical to a fragment already stored for that channel leaves the channel's
message cache unchanged (the dedup check of capture_message fires before any
insertion). -/
theorem duplicate_fragment_capture_noop (scache : SessionCache) (msg : DiscordMessage)
    (dados : MsgCache) (timeStr : String) (aiName : String) (session : Session)
    (rest : ChannelData) (f : String) (chan : ChannelFrags)
    (hweb : pyTruthyNat msg.webhookId = false)
    (hact : is_channel_active scache msg.guildId msg.channelId = true)
    (hsd : get_session_data scache msg.guildId msg.channelId =
      some ((aiName, session) :: rest))
    (hmc : getMsgChannel dados msg.guildId msg.channelId = some chan)
    (htext : capture_msg_text session.config msg ≠ "")
    (hfmt : capture_formatted session.config msg timeStr = some f)
    (hdup : chan.any (fun kv => kv.2 = f) = true) :
    capture_message scache msg none dados timeStr = dados := by
  obtain ⟨srv, hsrv, hchan⟩ : ∃ srv, alistGet dados msg.guildId = some srv ∧
      alistGet srv msg.channelId = some chan := by
    unfold getMsgChannel at hmc
    cases hg : alistGet dados msg.guildId with
    | none => rw [hg] at hmc; cases hmc
    | some srv => rw [hg] at hmc; exact ⟨srv, rfl, hmc⟩
  unfold capture_message capture_store setMsgChannel
  simp only [hweb, Bool.false_eq_true, if_false, hact, Bool.not_true, Bool.true_eq_false,
    hsrv, Option.isSome_some, if_true, Option.getD_some, hchan, hsd, hmc, ne_eq, htext,
    not_false_eq_true, hfmt, hdup, ite_true, ite_false]
  rw [alistSet_get_self srv msg.channelId chan hchan,
    alistSet_get_self dados msg.guildId srv hsrv]

/-- Witness for C6: re-submitting the already stored rendered fragment
`"hi there"` leaves the channel map untouched. -/
theorem duplicate_fragment_capture_noop_witness :
    capture_message [("s", { channels := [("c", [("Luna", {})])] })]
        { guildId := "s", channelId := "c", content := "hi there",
          author := { id := 7, name := "bob", globalName := some "Bob" } }
        none [("s", [("c", [("Message1", "hi there")])])] "12:00"
      = [("s", [("c", [("Message1", "hi there")])])] :=
  duplicate_fragment_capture_noop
    [("s", { channels := [("c", [("Luna", {})])] })]
    { guildId := "s", channelId := "c", content := "hi there",
      author := { id := 7, name := "bob", globalName := some "Bob" } }
    [("s", [("c", [("Message1", "hi there")])])] "12:00"
    "Luna" {} [] "hi there" [("Message1", "hi there")]
    rfl rfl rfl rfl (by decide) rfl (by decide)

/-! ### C2: the durable session store is last-writer-wins in call order -/

theorem getStored_apply_self {α : Type} (store : SessionStore α) (sid cid : String)
    (v : α) : getStoredChannel (applySessionJob store sid cid v) sid cid = some v := by
  unfold applySessionJob getStoredChannel
  rw [alistGet_set_self]
  exact alistGet_set_self _ cid v

theorem getStored_apply_ne {α : Type} (store : SessionStore α) (sid cid sid' cid' : String)
    (v : α) (h : ¬(sid' = sid ∧ cid' = cid)) :
    getStoredChannel (applySessionJob store sid' cid' v) sid cid =
      getStoredChannel store sid cid := by
  unfold applySessionJob getStoredChannel
  by_cases hs : sid' = sid
  · subst hs
    have hc : cid' ≠ cid := fun hcc => h ⟨rfl, hcc⟩
    cases hg : alistGet store sid' with
    | none =>
        simp [hg, alistGet_set_self, alistGet_set_ne _ _ _ _ hc, alistGet, Option.getD, hc]
    | some r =>
        simp [hg, alistGet_set_self, alistGet_set_ne _ _ _ _ hc, hc]
  · rw [alistGet_set_ne _ _ _ _ hs]

theorem process_no_key {α : Type} (store : SessionStore α) (jobs : List (SessionJob α))
    (sid cid : String) (h : ∀ j ∈ jobs, ¬(j.1 = sid ∧ j.2.1 = cid)) :
    getStoredChannel (process_session_updates store jobs) sid cid =
      getStoredChannel store sid cid := by
  induction jobs generalizing store with
  | nil => rfl
  | cons j rest ih =>
      have step : process_session_updates store (j :: rest) =
          process_session_updates (applySessionJob store j.1 j.2.1 j.2.2) rest := rfl
      rw [step, ih _ (fun j' hj' => h j' (List.mem_cons_of_mem _ hj'))]
      exact getStored_apply_ne _ _ _ _ _ _ (h j (List.mem_cons_self _ _))

/-- Claim C2: two `update_session_data` calls issued in sequence for the same
(server, channel) key update the in-memory cache synchronously and append
their durable-write jobs in call order; the single FIFO writer then leaves
the durable store in the state of the second call (never the first), no
matter which jobs for other keys are interleaved before, between, or after,
as long as no later job writes the same key. -/
theorem session_update_last_writer_wins (α : Type) (store mem : SessionStore α)
    (qpre qmid qpost : List (SessionJob α)) (sid cid : String) (d1 d2 : α)
    (hpost : ∀ j ∈ qpost, ¬(j.1 = sid ∧ j.2.1 = cid)) :
    getStoredChannel
        (process_session_updates store
          (qpre ++ (sid, cid, d1) :: qmid ++ (sid, cid, d2) :: qpost)) sid cid
      = some d2 ∧
    getStoredChannel (update_session_data
        (update_session_data mem qpre sid cid d1).1
        (update_session_data mem qpre sid cid d1).2 sid cid d2).1 sid cid = some d2 ∧
    (update_session_data (update_session_data mem qpre sid cid d1).1
        (update_session_data mem qpre sid cid d1).2 sid cid d2).2
      = qpre ++ [(sid, cid, d1), (sid, cid, d2)] ∧
    (d1 ≠ d2 →
      getStoredChannel
          (process_session_updates store
            (qpre ++ (sid, cid, d1) :: qmid ++ (sid, cid, d2) :: qpost)) sid cid
        ≠ some d1) := by
  have hmain : getStoredChannel
      (process_session_updates store
        (qpre ++ (sid, cid, d1) :: qmid ++ (sid, cid, d2) :: qpost)) sid cid
      = some d2 := by
    unfold process_session_updates
    rw [List.foldl_append, List.foldl_cons, List.foldl_append, List.foldl_cons]
    exact (process_no_key _ qpost sid cid hpost).trans (getStored_apply_self _ sid cid d2)
  refine ⟨hmain, getStored_apply_self _ sid cid d2, by simp [update_session_data],
    fun hne hcontra => hne ?_⟩
  exact Option.some.inj (hcontra.symm.trans hmain)

/-- Witness for C2 at concrete jobs: after the FIFO writer processes
`[(x,y,9), (s,c,0), (s,c,1), (x,y,7)]`, the key (s,c) holds the second
write 1. -/
theorem session_update_last_writer_wins_witness :
    getStoredChannel
        (process_session_updates ([] : SessionStore Nat)
          ([("x", "y", 9)] ++ ("s", "c", 0) :: [] ++ ("s", "c", 1) :: [("x", "y", 7)]))
        "s" "c" = some 1 :=
  (session_update_last_writer_wins Nat [] [] [("x", "y", 9)] [] [("x", "y", 7)]
    "s" "c" 0 1 (by decide)).1

/-! ### C5: retry bound and fallback on persistent upstream timeouts -/

/-- Claim C5: when every upstream `send_message` attempt times out, the
dispatcher issues exactly 3 attempts with doubling backoff sleeps of 2 s and
4 s between them, then returns the fixed generation-error fallback (subject
only to the global reply-pattern stripping applied to every reply) instead
of raising or hanging. -/
theorem dispatcher_retry_bound_and_fallback (patterns : List (String → String))
    (chatId characterId : Option String) (cache : MsgCache) (serverId channelId : String)
    (upstream2 : Nat → Except PyErr String) (recreateOk : Bool)
    (hchat : pyTruthyStr chatId = true) (hchar : pyTruthyStr characterId = true)
    (hfmt : format_to_send cache serverId channelId ≠ "") :
    cai_response patterns chatId characterId cache serverId channelId
        (fun _ => .error .timeoutError) upstream2 recreateOk
      = ⟨stripPatterns patterns msgGenError, 3, [2, 4], false, 0, []⟩ := by
  have htg : try_generate cache serverId channelId (fun _ => .error .timeoutError)
      = fun _ => .error .timeoutError := by
    funext n
    unfold try_generate
    rw [if_neg hfmt]
  have hr : retry_with_backoff (fun _ => (.error .timeoutError : Except PyErr String)) 3 2
      = ⟨some (.error .timeoutError), 3, [2, 4]⟩ := by
    unfold retry_with_backoff
    norm_num [retryLoop, retryableErr]
  unfold cai_response
  rw [hchat, hchar]
  simp only [Bool.not_true, Bool.or_self, Bool.false_eq_true, if_false]
  rw [htg, hr]

/-- Witness for C5 at a concrete cache and configuration. -/
theorem dispatcher_retry_bound_and_fallback_witness :
    cai_response [] (some "chat") (some "char") [("s", [("c", [("Message1", "hi")])])]
        "s" "c" (fun _ => .error .timeoutError) (fun _ => .ok "x") false
      = ⟨stripPatterns [] msgGenError, 3, [2, 4], false, 0, []⟩ :=
  dispatcher_retry_bound_and_fallback [] (some "chat") (some "char")
    [("s", [("c", [("Message1", "hi")])])] "s" "c" (fun _ => .ok "x") false
    rfl rfl (by decide)

/-! ### C9: the empty-reply check happens on the raw reply, before stripping -/

/-- Counterexample to claim C9: a successful raw reply `"Hello there"` is
non-empty, so no substitution happens; the configured pattern (here one whose
`re.sub` erases the whole reply, e.g. `(?s).*`) then strips it to the empty
string in the `finally` block — the text handed to the completion callback IS
empty after pattern stripping, contradicting the claimed strip-then-check
order and its consequence. -/
theorem stripped_reply_reaches_callback_empty :
    (cai_response [fun _ => ""] (some "chat") (some "char")
        [("s", [("c", [("Message1", "hi")])])] "s" "c"
        (fun _ => .ok "Hello there") (fun _ => .ok "x") false).text = "" := by
  rfl

theorem retry_first_ok (f : Nat → Except PyErr String) (m : Nat) (b : ℚ) (s : String)
    (h : f 0 = .ok s) (hm : m ≠ 0) : retry_with_backoff f m b = ⟨some (.ok s), 1, []⟩ := by
  obtain ⟨n, rfl⟩ : ∃ n, m = n + 1 := ⟨m - 1, by omega⟩
  unfold retry_with_backoff
  simp [retryLoop, h]

/-- Claim C9 as amended: `cai_response` substitutes the fixed empty-reply
message if the RAW reply is empty or whitespace, and only afterwards strips
the configured patterns, so the text passed to the completion callback can be
empty after stripping; it is the callback (`handle_response`) that guarantees
a non-empty delivered text by substituting its own fixed message. -/
theorem reply_cleaning_order_amended (patterns : List (String → String))
    (chatId characterId : Option String) (cache : MsgCache) (serverId channelId : String)
    (upstream upstream2 : Nat → Except PyErr String) (recreateOk : Bool) (s : String)
    (hchat : pyTruthyStr chatId = true) (hchar : pyTruthyStr characterId = true)
    (hfmt : format_to_send cache serverId channelId ≠ "")
    (hup : upstream 0 = .ok s) :
    (cai_response patterns chatId characterId cache serverId channelId
        upstream upstream2 recreateOk).text
      = stripPatterns patterns (if pyFalsyOrSpace s then msgEmptyReply else s) ∧
    ∀ (b : Bool) (r : String), pyFalsyOrSpace (handle_response_text b r) = false := by
  constructor
  · have h0 : try_generate cache serverId channelId upstream 0 = .ok s := by
      unfold try_generate
      rw [if_neg hfmt]
      exact hup
    have hr : retry_with_backoff (try_generate cache serverId channelId upstream) 3 2
        = ⟨some (.ok s), 1, []⟩ := retry_first_ok _ 3 2 s h0 (by omega)
    unfold cai_response
    rw [hchat, hchar]
    simp only [Bool.not_true, Bool.or_self, Bool.false_eq_true, if_false]
    rw [hr]
  · intro b r
    unfold handle_response_text
    cases hx : pyFalsyOrSpace (if b then remove_emoji r else r) with
    | false => simp [hx]
    | true => simp [hx]; decide

/-- Witness for the amended C9: with no patterns configured a non-empty raw
reply passes through unchanged. -/
theorem reply_cleaning_order_amended_witness :
    (cai_response [] (some "chat") (some "char") [("s", [("c", [("Message1", "hi")])])]
        "s" "c" (fun _ => .ok "Hello") (fun _ => .ok "x") false).text = "Hello" :=
  (reply_cleaning_order_amended [] (some "chat") (some "char")
    [("s", [("c", [("Message1", "hi")])])] "s" "c" (fun _ => .ok "Hello")
    (fun _ => .ok "x") false "Hello" rfl rfl (by decide) rfl).1

/-! ### C8: muting skips capture for ANY muted persona, not only when muted
for every persona -/

/-- Counterexample to claim C8: a channel with two personas where the author
is muted only for the first.  The code's mute check (`user_muted`, break on
first match) fires and message processing is a complete no-op, yet the author
is NOT in the muted_users of every persona — refuting the claimed
"if and only if muted for every persona". -/
theorem mute_every_persona_refuted :
    user_muted [("Luna", { mutedUsers := [42] }), ("Mia", {})] 42 = true ∧
    muted_for_every_persona [("Luna", { mutedUsers := [42] }), ("Mia", {})] 42 = false ∧
    read_channel_messages 1
        { sessionCache := [("s", { channels :=
            [("c", [("Luna", { mutedUsers := [42] }), ("Mia", {})])] })] }
        { guildId := "s", channelId := "c", content := "hello",
          author := { id := 42, name := "bob" } } none "12:00" 0
      = { sessionCache := [("s", { channels :=
            [("c", [("Luna", { mutedUsers := [42] }), ("Mia", {})])] })] } :=
  ⟨rfl, rfl, rfl⟩

/-- Claim C8 as amended: capture is a no-op due to muting exactly when the
author is in the muted_users set of ANY persona bound to the channel (checked
before any formatting); in particular, with a single persona, a muted user's
message leaves the whole state — including the message cache — unchanged. -/
theorem mute_any_persona_capture_noop (clientUserId : Nat) (st : BotState)
    (msg : DiscordMessage) (refMsg : Option DiscordMessage) (timeStr : String) (now : ℚ)
    (cd : ChannelData)
    (hg : msg.inGuild = true) (hid : msg.author.id ≠ clientUserId)
    (hp1 : pyStartsWith msg.content "#" = false)
    (hp2 : pyStartsWith msg.content "//" = false)
    (hcd : get_session_data st.sessionCache msg.guildId msg.channelId = some cd)
    (hne : cd ≠ [])
    (hmute : user_muted cd msg.author.id = true) :
    read_channel_messages clientUserId st msg refMsg timeStr now = st := by
  obtain ⟨p, l, rfl⟩ : ∃ p l, cd = p :: l := by
    cases cd with
    | nil => exact absurd rfl hne
    | cons p l => exact ⟨p, l, rfl⟩
  have hbeq : (msg.author.id == clientUserId) = false := by
    simp [hid]
  unfold read_channel_messages
  simp only [hg, Bool.not_true, hbeq, Bool.or_self, Bool.false_eq_true, if_false,
    hp1, hp2, hcd, hmute, if_true]

/-- Witness for the amended C8: a single-persona channel whose one persona
mutes the author; the muted user's message produces zero cache entries. -/
theorem mute_any_persona_capture_noop_witness :
    read_channel_messages 1
        { sessionCache := [("s", { channels := [("c", [("Luna", { mutedUsers := [7] })])] })] }
        { guildId := "s", channelId := "c", content := "hello",
          author := { id := 7, name := "bob" } } none "12:00" 0
      = { sessionCache := [("s",
            { channels := [("c", [("Luna", { mutedUsers := [7] })])] })] } :=
  mute_any_persona_capture_noop 1
    { sessionCache := [("s", { channels := [("c", [("Luna", { mutedUsers := [7] })])] })] }
    { guildId := "s", channelId := "c", content := "hello",
      author := { id := 7, name := "bob" } } none "12:00" 0
    [("Luna", { mutedUsers := [7] })]
    rfl (by decide) rfl rfl rfl (List.cons_ne_nil _ _) rfl

/-! ### C1: at most one generation task per persona is ever running -/

theorem mark_task_done_map_tid (ts : List GenTask) (i : Nat) :
    (mark_task_done ts i).map (fun t => t.tid) = ts.map (fun t => t.tid) := by
  unfold mark_task_done
  rw [List.map_map]
  have hfun : ((fun t : GenTask => t.tid) ∘
      (fun t : GenTask => if t.tid = i then { t with running := false } else t))
      = fun t : GenTask => t.tid := by
    funext t
    by_cases h : t.tid = i <;> simp [h]
  rw [hfun]

theorem mem_mark_task_done {ts : List GenTask} {i : Nat} {t' : GenTask}
    (h : t' ∈ mark_task_done ts i) :
    ∃ t ∈ ts, t'.key = t.key ∧ t'.tid = t.tid ∧
      (t'.running = true → t.running = true ∧ t.tid ≠ i) := by
  unfold mark_task_done at h
  rw [List.mem_map] at h
  obtain ⟨t, ht, heq⟩ := h
  by_cases hc : t.tid = i
  · rw [if_pos hc] at heq
    refine ⟨t, ht, ?_, ?_, ?_⟩
    · rw [← heq]
    · rw [← heq]
    · intro habs
      rw [← heq] at habs
      cases habs
  · rw [if_neg hc] at heq
    subst heq
    exact ⟨t, ht, rfl, rfl, fun hr => ⟨hr, hc⟩⟩

theorem taskInv_init : TaskInv ⟨[], [], 0⟩ :=
  ⟨by simp, by simp, by simp⟩

theorem taskInv_extend (s : TaskState) (k : String) (tasks1 : List GenTask)
    (hmap : tasks1.map (fun t => t.tid) = s.tasks.map (fun t => t.tid))
    (hmem : ∀ t' ∈ tasks1, ∃ t ∈ s.tasks, t'.key = t.key ∧ t'.tid = t.tid ∧
      (t'.running = true → t.running = true))
    (hnok : ∀ t' ∈ tasks1, t'.key = k → t'.running = true → False)
    (hs : TaskInv s) :
    TaskInv ⟨tasks1 ++ [⟨k, s.nextId, true⟩], alistSet s.activeTasks k s.nextId,
      s.nextId + 1⟩ := by
  obtain ⟨hfresh, hnodup, hdict⟩ := hs
  refine ⟨?_, ?_, ?_⟩
  · intro t ht
    rcases List.mem_append.mp ht with h1 | h2
    · obtain ⟨t0, ht0, _, htid, _⟩ := hmem t h1
      have := hfresh t0 ht0
      simp only [htid]
      omega
    · simp only [List.mem_singleton] at h2
      subst h2
      simp
  · simp only [List.map_append, hmap, List.map_cons, List.map_nil]
    rw [List.nodup_append]
    refine ⟨hnodup, List.nodup_singleton _, ?_⟩
    intro x hx
    rw [List.mem_map] at hx
    obtain ⟨t, ht, rfl⟩ := hx
    have := hfresh t ht
    simp only [List.mem_singleton]
    omega
  · intro t ht hrun
    rcases List.mem_append.mp ht with h1 | h2
    · obtain ⟨t0, ht0, hkey, htid, hrun0⟩ := hmem t h1
      have hk : t.key ≠ k := fun hkk => hnok t h1 hkk hrun
      rw [alistGet_set_ne _ _ _ _ (Ne.symm hk), hkey, htid]
      exact hdict t0 ht0 (hrun0 hrun)
    · simp only [List.mem_singleton] at h2
      subst h2
      exact alistGet_set_self _ k s.nextId

theorem taskInv_trigger (s : TaskState) (k : String) (hs : TaskInv s) :
    TaskInv (trigger_generation s k) := by
  have hdict := hs.2.2
  unfold trigger_generation
  cases hga : alistGet s.activeTasks k with
  | none =>
      show TaskInv ⟨s.tasks ++ [⟨k, s.nextId, true⟩], alistSet s.activeTasks k s.nextId,
        s.nextId + 1⟩
      apply taskInv_extend s k s.tasks rfl ?_ ?_ hs
      · intro t' ht'
        exact ⟨t', ht', rfl, rfl, fun h => h⟩
      · intro t' ht' hkey hrun
        have hd := hdict t' ht' hrun
        rw [hkey, hga] at hd
        cases hd
  | some tid₀ =>
      show TaskInv ⟨(if task_is_done s.tasks tid₀ then s.tasks
          else mark_task_done s.tasks tid₀) ++ [⟨k, s.nextId, true⟩],
        alistSet s.activeTasks k s.nextId, s.nextId + 1⟩
      by_cases hdone : task_is_done s.tasks tid₀
      · rw [if_pos hdone]
        apply taskInv_extend s k s.tasks rfl ?_ ?_ hs
        · intro t' ht'
          exact ⟨t', ht', rfl, rfl, fun h => h⟩
        · intro t' ht' hkey hrun
          have hd := hdict t' ht' hrun
          rw [hkey, hga] at hd
          have htid : t'.tid = tid₀ := (Option.some.inj hd).symm
          unfold task_is_done at hdone
          rw [List.all_eq_true] at hdone
          have := hdone t' ht'
          rw [htid] at this
          simp [hrun] at this
      · rw [if_neg hdone]
        apply taskInv_extend s k (mark_task_done s.tasks tid₀)
          (mark_task_done_map_tid s.tasks tid₀) ?_ ?_ hs
        · intro t' ht'
          obtain ⟨t, ht, hkey, htid, hrun⟩ := mem_mark_task_done ht'
          exact ⟨t, ht, hkey, htid, fun hr => (hrun hr).1⟩
        · intro t' ht' hkey hrun
          obtain ⟨t, ht, hkey0, htid, hrun0⟩ := mem_mark_task_done ht'
          obtain ⟨hr0, hne0⟩ := hrun0 hrun
          have hd := hdict t ht hr0
          rw [← hkey0, hkey, hga] at hd
          exact hne0 (Option.some.inj hd).symm

theorem taskInv_finish (s : TaskState) (tid : Nat) (hs : TaskInv s) :
    TaskInv (finish_task s tid) := by
  obtain ⟨hfresh, hnodup, hdict⟩ := hs
  unfold finish_task
  refine ⟨?_, ?_, ?_⟩
  · intro t ht
    obtain ⟨t0, ht0, _, htid, _⟩ := mem_mark_task_done ht
    rw [htid]
    exact hfresh t0 ht0
  · simpa [mark_task_done_map_tid] using hnodup
  · intro t ht hrun
    obtain ⟨t0, ht0, hkey, htid, hrun0⟩ := mem_mark_task_done ht
    obtain ⟨hr0, _⟩ := hrun0 hrun
    rw [hkey, htid]
    exact hdict t0 ht0 hr0

theorem taskInv_reachable (s : TaskState) (h : TaskReachable s) : TaskInv s := by
  induction h with
  | init => exact taskInv_init
  | step _ hstep ih =>
      cases hstep with
      | trigger k => exact taskInv_trigger _ k ih
      | complete tid => exact taskInv_finish _ tid ih

theorem nodup_all_eq_length_le_one (l : List Nat) (v : Nat) (hn : l.Nodup)
    (h : ∀ x ∈ l, x = v) : l.length ≤ 1 := by
  match l with
  | [] => simp
  | [a] => simp
  | a :: b :: rest =>
      exfalso
      have ha := h a (by simp)
      have hb := h b (by simp)
      rw [List.nodup_cons] at hn
      exact hn.1 (by simp [ha, hb])

theorem taskInv_running_le_one (s : TaskState) (hs : TaskInv s) (k : String) :
    (running_for s k).length ≤ 1 := by
  obtain ⟨hfresh, hnodup, hdict⟩ := hs
  cases hga : alistGet s.activeTasks k with
  | none =>
      have hempty : running_for s k = [] := by
        rw [List.eq_nil_iff_forall_not_mem]
        intro t ht
        unfold running_for at ht
        rw [List.mem_filter] at ht
        obtain ⟨hmem, hcond⟩ := ht
        rw [Bool.and_eq_true, beq_iff_eq] at hcond
        have hd := hdict t hmem hcond.2
        rw [hcond.1, hga] at hd
        cases hd
      simp [hempty]
  | some v =>
      have hle := nodup_all_eq_length_le_one ((running_for s k).map (fun t => t.tid)) v
        (hnodup.sublist ((List.filter_sublist _).map _)) ?_
      · simpa using hle
      · intro x hx
        rw [List.mem_map] at hx
        obtain ⟨t, ht, rfl⟩ := hx
        unfold running_for at ht
        rw [List.mem_filter] at ht
        obtain ⟨hmem, hcond⟩ := ht
        rw [Bool.and_eq_true, beq_iff_eq] at hcond
        have hd := hdict t hmem hcond.2
        rw [hcond.1, hga] at hd
        exact (Option.some.inj hd).symm

/-- Claim C1: in every reachable bookkeeping state, at most one generation
task per persona key is running — before the monitor schedules a new
generation task it cancels and awaits any still-running task stored for the
same key (`trigger_generation`), so generation-task executions for one
persona never overlap. -/
theorem persona_generation_exclusive (s : TaskState) (h : TaskReachable s) (k : String) :
    (running_for s k).length ≤ 1 :=
  taskInv_running_le_one s (taskInv_reachable s h) k

/-- Witness for C1: the state after two back-to-back triggers for the same
persona key is reachable and has at most one running task for it. -/
theorem persona_generation_exclusive_witness :
    (running_for (trigger_generation (trigger_generation ⟨[], [], 0⟩ "g") "g") "g").length
      ≤ 1 :=
  persona_generation_exclusive _
    (TaskReachable.step (TaskReachable.step TaskReachable.init (TaskStep.trigger _ "g"))
      (TaskStep.trigger _ "g")) "g"

end Hashi
